import Mathlib

/-
Verification development for the greasy FAT-volume inspector
(src/main.rs, src/formats/fat.rs, src/formats/fat_entry.rs).

Shallow embedding conventions:
* The memory-mapped image is a `List Nat` of byte values (each < 256).
* Rust `u8`/`u16`/`u32` arithmetic is modelled on `Nat` with explicit
  `% 2^w` where the source can wrap (release-mode two's-complement
  semantics); division by zero and out-of-bounds slicing - which abort
  the Rust program - are modelled by `Option` results (`none` = the
  source code panics / does not return normally).
* Rust `String`s are lists of Unicode scalar values (`List Nat`);
  byte slices destined for strings are decoded with a faithful UTF-8
  decoder (strict for `CString::into_string`, lossy with U+FFFD
  substitution of maximal subparts for `String::from_utf8_lossy`).
-/

namespace Greasy

/-- 2^32, the modulus of Rust `u32` arithmetic. -/
def pow32 : Nat := 4294967296

/-- Wrapping `u32` subtraction (`a - b` in release mode two's complement). -/
def u32sub (a b : Nat) : Nat := (a % pow32 + pow32 - b % pow32) % pow32

/-- Read one byte `mem[off]`; `none` when the index is out of bounds
(Rust panics there). -/
def byte? (mem : List Nat) (off : Nat) : Option Nat :=
  if off < mem.length then some (mem.getD off 0) else none

/-- Rust slice `&mem[a..b]`; `none` when the range is out of bounds. -/
def slice? (mem : List Nat) (a b : Nat) : Option (List Nat) :=
  if a ≤ b ∧ b ≤ mem.length then some ((mem.drop a).take (b - a)) else none

/-- `LittleEndian::read_u16(&mem[off..off+2])`. -/
def readU16? (mem : List Nat) (off : Nat) : Option Nat :=
  if off + 2 ≤ mem.length then
    some (mem.getD off 0 + 256 * mem.getD (off + 1) 0)
  else none

/-- `LittleEndian::read_u32(&mem[off..off+4])`. -/
def readU32? (mem : List Nat) (off : Nat) : Option Nat :=
  if off + 4 ≤ mem.length then
    some (mem.getD off 0 + 256 * mem.getD (off + 1) 0 +
          65536 * mem.getD (off + 2) 0 + 16777216 * mem.getD (off + 3) 0)
  else none

/-- Is `c` a UTF-8 continuation byte (`0x80..0xBF`)? -/
def utf8Cont (c : Nat) : Bool := Nat.ble 128 c && Nat.ble c 191

/-- Admissible first continuation byte of a three-byte sequence with
lead byte `b` (surrogate and overlong exclusions). -/
def utf8Cont3First (b c : Nat) : Bool :=
  if b == 224 then Nat.ble 160 c && Nat.ble c 191
  else if b == 237 then Nat.ble 128 c && Nat.ble c 159
  else utf8Cont c

/-- Admissible first continuation byte of a four-byte sequence with
lead byte `b` (overlong and beyond-U+10FFFF exclusions). -/
def utf8Cont4First (b c : Nat) : Bool :=
  if b == 240 then Nat.ble 144 c && Nat.ble c 191
  else if b == 244 then Nat.ble 128 c && Nat.ble c 143
  else utf8Cont c

/-- Strict UTF-8 decoding of a byte list into Unicode scalar values;
`none` on any invalid sequence.  Models `String::from_utf8` /
`CString::into_string`'s validity check together with the resulting
`String`'s contents. -/
def utf8Decode? : List Nat → Option (List Nat)
  | [] => some []
  | b :: rest =>
    if Nat.blt b 128 then (utf8Decode? rest).map (fun t => b :: t)
    else if Nat.ble 194 b && Nat.ble b 223 then
      match rest with
      | c :: r =>
        if utf8Cont c then
          (utf8Decode? r).map (fun t => ((b - 192) * 64 + (c - 128)) :: t)
        else none
      | [] => none
    else if Nat.ble 224 b && Nat.ble b 239 then
      match rest with
      | c1 :: r1 =>
        if utf8Cont3First b c1 then
          match r1 with
          | c2 :: r2 =>
            if utf8Cont c2 then
              (utf8Decode? r2).map
                (fun t => ((b - 224) * 4096 + (c1 - 128) * 64 + (c2 - 128)) :: t)
            else none
          | [] => none
        else none
      | [] => none
    else if Nat.ble 240 b && Nat.ble b 244 then
      match rest with
      | c1 :: r1 =>
        if utf8Cont4First b c1 then
          match r1 with
          | c2 :: r2 =>
            if utf8Cont c2 then
              match r2 with
              | c3 :: r3 =>
                if utf8Cont c3 then
                  (utf8Decode? r3).map
                    (fun t => ((b - 240) * 262144 + (c1 - 128) * 4096 +
                               (c2 - 128) * 64 + (c3 - 128)) :: t)
                else none
              | [] => none
            else none
          | [] => none
        else none
      | [] => none
    else none

/-- Lossy UTF-8 decoding, as `String::from_utf8_lossy`: each maximal
subpart of an ill-formed sequence is replaced by one U+FFFD (65533). -/
def utf8Lossy : List Nat → List Nat
  | [] => []
  | b :: rest =>
    if Nat.blt b 128 then b :: utf8Lossy rest
    else if Nat.ble 194 b && Nat.ble b 223 then
      match hr1 : rest with
      | c :: r =>
        if utf8Cont c then ((b - 192) * 64 + (c - 128)) :: utf8Lossy r
        else 65533 :: utf8Lossy rest
      | [] => [65533]
    else if Nat.ble 224 b && Nat.ble b 239 then
      match hr1 : rest with
      | c1 :: r1 =>
        if utf8Cont3First b c1 then
          match hr2 : r1 with
          | c2 :: r2 =>
            if utf8Cont c2 then
              ((b - 224) * 4096 + (c1 - 128) * 64 + (c2 - 128)) :: utf8Lossy r2
            else 65533 :: utf8Lossy r1
          | [] => [65533]
        else 65533 :: utf8Lossy rest
      | [] => [65533]
    else if Nat.ble 240 b && Nat.ble b 244 then
      match hr1 : rest with
      | c1 :: r1 =>
        if utf8Cont4First b c1 then
          match hr2 : r1 with
          | c2 :: r2 =>
            if utf8Cont c2 then
              match hr3 : r2 with
              | c3 :: r3 =>
                if utf8Cont c3 then
                  ((b - 240) * 262144 + (c1 - 128) * 4096 +
                   (c2 - 128) * 64 + (c3 - 128)) :: utf8Lossy r3
                else 65533 :: utf8Lossy r2
              | [] => [65533]
            else 65533 :: utf8Lossy r1
          | [] => [65533]
        else 65533 :: utf8Lossy rest
      | [] => [65533]
    else 65533 :: utf8Lossy rest
termination_by l => l.length
decreasing_by all_goals (subst_eqs; simp [List.length_cons]; try omega)

/-- Is `c` a Unicode `White_Space` scalar (the set `str::trim` strips)? -/
def isWs (c : Nat) : Bool :=
  (Nat.ble 9 c && Nat.ble c 13) || c == 32 || c == 133 || c == 160 ||
  c == 5760 || (Nat.ble 8192 c && Nat.ble c 8202) || c == 8232 ||
  c == 8233 || c == 8239 || c == 8287 || c == 12288

/-- Model of Rust `str::trim`: strip leading and trailing whitespace
scalars. -/
def trimWs (s : List Nat) : List Nat :=
  ((s.dropWhile isWs).reverse.dropWhile isWs).reverse

/-- Model of `s.trim_matches(|c| c == std::char::REPLACEMENT_CHARACTER)`. -/
def trimFFFD (s : List Nat) : List Nat :=
  ((s.dropWhile (fun c => c == 65533)).reverse.dropWhile
    (fun c => c == 65533)).reverse

/-- Model of `CString::new(bytes).expect(..).into_string().expect(..)`:
fails (panic, modelled `none`) when the bytes contain a NUL or are not
valid UTF-8; otherwise yields the string's scalar values.  (On valid
input the lossy and strict decoders agree, so strict decoding is used.) -/
def cstr? (bs : List Nat) : Option (List Nat) :=
  if bs.any (fun c => c == 0) then none else utf8Decode? bs

/-- `CString::new(&mem[a..b]) ... into_string()` as one read. -/
def readCString? (mem : List Nat) (a b : Nat) : Option (List Nat) :=
  (slice? mem a b).bind cstr?

/-- The scalar list of the literal `"FAT12"`. -/
def sFAT12 : List Nat := [70, 65, 84, 49, 50]

/-- The scalar list of the literal `"FAT16"`. -/
def sFAT16 : List Nat := [70, 65, 84, 49, 54]

/-- The scalar list of the literal `"FAT32"`. -/
def sFAT32 : List Nat := [70, 65, 84, 51, 50]

/-- The struct `Fat` of `src/formats/fat.rs` (the `Cluster`/`Sector`
newtypes around `u32` are represented by plain `Nat`). -/
structure Fat where
  mem : List Nat
  oem : List Nat
  fat_type : List Nat
  fat_table_sectors : Nat
  fat_table_entry_size : Nat
  fat_table_count : Nat
  bytes_per_sector : Nat
  sectors_per_cluster : Nat
  total_clusters : Nat
  total_sectors : Nat
  sectors_reserved_area : Nat
  start_reserved_area : Nat
  sectors_fat_area : Nat
  start_fat_area : Nat
  start_data_area : Nat
  start_root_dir : Nat
  start_cluster_area : Nat
deriving DecidableEq, Repr

/-- The struct `Entry` (identical field layout in `src/formats/fat.rs`
and `src/formats/fat_entry.rs`); `start` and the optional cluster list
hold the `u32` cluster numbers. -/
structure Entry where
  name : List Nat
  long_name : Option (List Nat)
  attributes : Nat
  creat_tos : Nat
  creat_hms : Nat
  creat_day : Nat
  access_day : Nat
  written_hms : Nat
  written_day : Nat
  start : Nat
  clusters : Option (List Nat)
  size : Nat
  checksum : Nat
  deleted : Bool
deriving DecidableEq, Repr

/-- The struct `LFNEntry` (identical in both source files). -/
structure LFNEntry where
  sequence_number : Nat
  filename : List Nat
  checksum : Nat
deriving DecidableEq, Repr

/-- `Fat::cluster_to_sector` (fat.rs line 122): `u32` arithmetic
`((cluster - 2) * sectors_per_cluster) + start_data_area`.  The source
asserts `cluster >= 2`; theorems about this function carry that
precondition as a hypothesis. -/
def Fat.cluster_to_sector (fat : Fat) (cluster : Nat) : Nat :=
  ((cluster - 2) * fat.sectors_per_cluster % pow32 + fat.start_data_area) % pow32

/-- `Fat::sector_to_cluster` (fat.rs line 132): `u32` arithmetic
`(sector - start_data_area) / sectors_per_cluster` (wrapping
subtraction; the division panics when `sectors_per_cluster = 0`, so
theorems carry `0 < sectors_per_cluster`). -/
def Fat.sector_to_cluster (fat : Fat) (sector : Nat) : Nat :=
  u32sub sector fat.start_data_area / fat.sectors_per_cluster

/-- `Fat::offset` (fat.rs line 141): `sector * bytes_per_sector` as
`usize`. -/
def Fat.offset (fat : Fat) (sector : Nat) : Nat :=
  sector * fat.bytes_per_sector

/-- `Fat::fat_table_offset` (fat.rs line 145): `u32` arithmetic
`(start_fat_area * bytes_per_sector) + (cluster * fat_table_entry_size)`
cast to `usize`.  The source asserts `cluster >= 2`. -/
def Fat.fat_table_offset (fat : Fat) (cluster : Nat) : Nat :=
  (fat.start_fat_area * fat.bytes_per_sector % pow32 +
   cluster * fat.fat_table_entry_size % pow32) % pow32

/-- `Fat::new` (fat.rs lines 168-234).  `none` models a panic: a failed
`CString` parse / UTF-8 conversion, an out-of-bounds slice, or a
division by zero.  Multiplications, additions and subtractions follow
release-mode wrapping semantics (`% 2^16` for the `u16` product
`total_root_entries * DIR_ENTRY_SIZE`, `% 2^32` for `u32` terms). -/
def Fat.new (mem : List Nat) : Option Fat :=
  match readCString? mem 3 11 with
  | none => none
  | some oem =>
  match readU16? mem 22 with
  | none => none
  | some w22 =>
  match (if w22 = 0 then readU32? mem 36 else some w22) with
  | none => none
  | some fat_table_sectors =>
  match (if w22 = 0 then readCString? mem 82 90 else readCString? mem 54 62) with
  | none => none
  | some fat_type =>
  let fat_table_entry_size :=
    if trimWs fat_type = sFAT12 then 12
    else if trimWs fat_type = sFAT16 then 16
    else if trimWs fat_type = sFAT32 then 32
    else 0
  match readU16? mem 19 with
  | none => none
  | some w19 =>
  match (if w19 = 0 then readU32? mem 32 else some w19) with
  | none => none
  | some total_sectors =>
  match readU16? mem 14 with
  | none => none
  | some sectors_reserved_area =>
  match byte? mem 16 with
  | none => none
  | some fat_table_count =>
  match readU16? mem 11 with
  | none => none
  | some bytes_per_sector =>
  match byte? mem 13 with
  | none => none
  | some sectors_per_cluster =>
  let sectors_fat_area := fat_table_count * fat_table_sectors % pow32
  let start_fat_area := sectors_reserved_area
  let start_data_area := (start_fat_area + sectors_fat_area) % pow32
  match (if trimWs fat_type = sFAT32 then some start_data_area
         else match readU16? mem 17 with
              | none => none
              | some tre =>
                if bytes_per_sector = 0 then none
                else some ((start_data_area + tre * 32 % 65536 / bytes_per_sector) % pow32)) with
  | none => none
  | some start_cluster_area =>
  match (if trimWs fat_type = sFAT32 then
           match readU32? mem 44 with
           | none => none
           | some frc =>
             some ((u32sub frc 2 * sectors_per_cluster % pow32 + start_cluster_area) % pow32)
         else some start_data_area) with
  | none => none
  | some start_root_dir =>
  if sectors_per_cluster = 0 then none
  else
    let total_clusters := (u32sub total_sectors start_cluster_area / sectors_per_cluster + 1) % pow32
    some {
      mem := mem, oem := oem, fat_type := fat_type,
      fat_table_sectors := fat_table_sectors,
      fat_table_entry_size := fat_table_entry_size,
      fat_table_count := fat_table_count,
      bytes_per_sector := bytes_per_sector,
      sectors_per_cluster := sectors_per_cluster,
      total_clusters := total_clusters,
      total_sectors := total_sectors,
      sectors_reserved_area := sectors_reserved_area,
      start_reserved_area := 0,
      sectors_fat_area := sectors_fat_area,
      start_fat_area := start_fat_area,
      start_data_area := start_data_area,
      start_root_dir := start_root_dir,
      start_cluster_area := start_cluster_area }

/-- `Entry::checksum` (fat.rs line 337; Lean forbids reusing the field
name `checksum`, hence `checksumOf`): fold
`sum := ((sum & 1) << 7 | sum >> 1) + b, mod 256` over the bytes of
the name. -/
def Entry.checksumOf (s : List Nat) : Nat :=
  s.foldl (fun cs b => (((cs &&& 1) <<< 7 ||| cs >>> 1) + b) % 256) 0

/-- `Entry::new` of fat.rs (line 352): the 11 name bytes go through
`CString::new` (panic on any NUL byte, modelled `none`) and
`into_string` (panic on invalid UTF-8); the checksum is computed from
the name string, whose UTF-8 bytes equal the raw name bytes. -/
def Entry.new (mem : List Nat) : Option Entry :=
  match slice? mem 0 11 with
  | none => none
  | some nb =>
  match cstr? nb with
  | none => none
  | some name =>
  match byte? mem 11, byte? mem 13, readU16? mem 14, readU16? mem 16,
        readU16? mem 18, readU16? mem 22, readU16? mem 24, readU16? mem 20,
        readU16? mem 26, readU32? mem 28, byte? mem 0 with
  | some attributes, some creat_tos, some creat_hms, some creat_day,
    some access_day, some written_hms, some written_day, some hi,
    some lo, some size, some b0 =>
    some {
      name := name, long_name := none, attributes := attributes,
      creat_tos := creat_tos, creat_hms := creat_hms, creat_day := creat_day,
      access_day := access_day, written_hms := written_hms,
      written_day := written_day, start := hi * 65536 + lo,
      clusters := none, size := size, checksum := Entry.checksumOf nb,
      deleted := b0 == 229 }
  | _, _, _, _, _, _, _, _, _, _, _ => none

/-- `Entry::is_this_entry` (fat_entry.rs line 144):
`self.name.trim() == "."`. -/
def Entry.is_this_entry (e : Entry) : Bool := trimWs e.name == [46]

/-- `Entry::is_prev_entry` (fat_entry.rs line 148):
`self.name.trim() == ".."`. -/
def Entry.is_prev_entry (e : Entry) : Bool := trimWs e.name == [46, 46]

/-- `LFNEntry::new` (fat.rs line 455): three byte ranges decoded
lossily, concatenated, and trimmed of U+FFFD at both ends. -/
def LFNEntry.new (mem : List Nat) : Option LFNEntry :=
  match slice? mem 1 11, slice? mem 14 26, slice? mem 28 32,
        byte? mem 0, byte? mem 13 with
  | some f1, some f2, some f3, some s0, some cs =>
    some {
      sequence_number := s0,
      filename := trimFFFD (utf8Lossy f1 ++ utf8Lossy f2 ++ utf8Lossy f3),
      checksum := cs }
  | _, _, _, _, _ => none

/-- `LFNEntry::is_lfn_entry` (fat.rs line 475): `attributes == 0x0f`. -/
def LFNEntry.is_lfn_entry (attributes : Nat) : Bool := attributes == 15

/-- Strict lexicographic order on scalar lists: the order Rust derives
for `String` (UTF-8 byte order equals scalar order). -/
def listLtB : List Nat → List Nat → Bool
  | [], [] => false
  | [], _ :: _ => true
  | _ :: _, [] => false
  | a :: as, b :: bs => Nat.blt a b || (a == b && listLtB as bs)

/-- The strict order `#[derive(Ord)]` generates for `LFNEntry`:
lexicographic on `(sequence_number, filename, checksum)` in field
declaration order. -/
def lfnLt (x y : LFNEntry) : Bool :=
  Nat.blt x.sequence_number y.sequence_number ||
  (x.sequence_number == y.sequence_number &&
    (listLtB x.filename y.filename ||
     (x.filename == y.filename && Nat.blt x.checksum y.checksum)))

/-- Stable insertion of one element for the model of `Vec::sort`. -/
def lfnInsert (x : LFNEntry) : List LFNEntry → List LFNEntry
  | [] => [x]
  | y :: ys => if lfnLt y x then y :: lfnInsert x ys else x :: y :: ys

/-- Model of `lfn_vec.sort()`: stable sort by the derived `Ord`. -/
def lfnSort : List LFNEntry → List LFNEntry
  | [] => []
  | x :: xs => lfnInsert x (lfnSort xs)

/-- `Entry::add_lfn` (fat.rs line 422).  The `HashMap<u8, Vec<LFNEntry>>`
is represented by the flat list of LFN entries in scan order: the
bucket `lfns.get_mut(&self.checksum)` is the in-order sublist with
matching checksum, and `get_mut` returns `Some` exactly when that
sublist is nonempty. -/
def Entry.add_lfn (e : Entry) (lfns : List LFNEntry) : Entry :=
  let bucket := lfns.filter (fun l => l.checksum == e.checksum)
  match bucket with
  | [] => e
  | _ :: _ =>
    { e with long_name := some ((lfnSort bucket).foldl (fun s l => s ++ l.filename) []) }

/-- Reinterpretation `u32 as i32` (two's complement), for
`self.start.0 as i32`. -/
def toI32 (u : Nat) : Int :=
  if u % pow32 < 2147483648 then (u % pow32 : Int) else (u % pow32 : Int) - (pow32 : Int)

/-- Reinterpretation `i32 as u32`, for `Cluster(n as u32)`. -/
def intToU32 (n : Int) : Nat := (n % (pow32 : Int)).toNat

/-- The `while` loop of `Entry::add_cluster_chain` (fat.rs lines
440-443), indexed by fuel.  One fuel unit pays for one guard check;
`none` means the loop has not returned normally within that much fuel
(still running, or aborted on the `cluster >= 2` assertion inside
`fat_table_offset`).  The loop body pushes `n as u32`, recomputes
`fat.fat_table_offset(&self.start)` into a variable it never reads,
and leaves the cursor `n` unchanged. -/
def Entry.add_cluster_chain_go (fat : Fat) (start : Nat) : Nat → Int → Option (List Nat)
  | 0, _ => none
  | fuel + 1, n =>
    if n = -1 ∨ n = 0 ∨ n = -9 then some []
    else if start < 2 then none
    else
      let _off := Fat.fat_table_offset fat start
      (Entry.add_cluster_chain_go fat start fuel n).map (fun l => intToU32 n :: l)

/-- `Entry::add_cluster_chain` (fat.rs line 435) on an entry whose
first cluster is `start`: runs the loop on the cursor
`n = start as i32` with the given fuel. -/
def Entry.add_cluster_chain (fat : Fat) (start : Nat) (fuel : Nat) : Option (List Nat) :=
  Entry.add_cluster_chain_go fat start fuel (toI32 start)

/-- The scan loop of `Fat::_tree` (fat.rs lines 247-260) over the byte
suffix of the image that begins at the directory region's offset: stop
at a window whose first byte is 0; otherwise decode the 32-byte window
`w` as an LFN entry when its attribute byte (index 11) is 0x0f, or as a
directory entry, collect it, and continue 32 bytes further.  Entries
and LFN entries are collected in scan order; `none` models a panic:
an out-of-bounds read (fewer than 32 bytes left before the end of the
image with a nonzero first byte - Rust aborts there on `mem[i + 11]`
or on the 32-byte slice) or an `Entry::new` abort. -/
def Fat.treeScan : List Nat → Option (List Entry × List LFNEntry)
  | [] => none
  | 0 :: _ => some ([], [])
  | b :: b1 :: b2 :: b3 :: b4 :: b5 :: b6 :: b7 :: b8 :: b9 :: b10 :: b11 :: b12 :: b13 :: b14 :: b15 :: b16 :: b17 :: b18 :: b19 :: b20 :: b21 :: b22 :: b23 :: b24 :: b25 :: b26 :: b27 :: b28 :: b29 :: b30 :: b31 :: tail =>
    let w : List Nat := [b, b1, b2, b3, b4, b5, b6, b7, b8, b9, b10, b11, b12, b13, b14, b15, b16, b17, b18, b19, b20, b21, b22, b23, b24, b25, b26, b27, b28, b29, b30, b31]
    if LFNEntry.is_lfn_entry b11 then
      match LFNEntry.new w with
      | none => none
      | some l => (Fat.treeScan tail).map (fun p => (p.1, l :: p.2))
    else
      match Entry.new w with
      | none => none
      | some e => (Fat.treeScan tail).map (fun p => (e :: p.1, p.2))
  | _ => none

/-- Modelled from the spec: the developed directory walker of spec
section 4.6 is not under src/ - only its helper predicates
`Entry::is_this_entry` and `Entry::is_prev_entry` (fat_entry.rs lines
144-150) are; the walker iteration `Fat::_tree` in fat.rs is an earlier
historical iteration without the filter.  Per step 4c, each short entry
collected from a directory region is emitted to consumers unless it is
the `.` or `..` pseudo-entry. -/
def emitEntries (shorts : List Entry) : List Entry :=
  shorts.filter (fun e => !(e.is_this_entry || e.is_prev_entry))

/-- A well-formed FAT16 boot sector (spec section 8, scenario 2):
bytes_per_sector 512, sectors_per_cluster 4, 2 FAT tables of 32
sectors, 1 reserved sector, 512 root entries, 20000 total sectors,
type label "FAT16   ". -/
def imgFat16 : List Nat :=
  [235, 60, 144, 77, 83, 68, 79, 83, 53, 46, 48, 0, 2, 4, 1, 0, 2, 0, 2,
   32, 78, 248, 32, 0, 0, 0, 0, 0, 0, 0, 0, 0, 0, 0, 0, 0, 0, 0, 0, 0, 0,
   0, 0, 0, 0, 0, 0, 0, 0, 0, 0, 0, 0, 0, 70, 65, 84, 49, 54, 32, 32, 32,
   0, 0]

/-- `imgFat16` with total_root_entries changed to 8, so that the root
directory occupies 256 bytes: half a sector. -/
def imgFat16b : List Nat :=
  [235, 60, 144, 77, 83, 68, 79, 83, 53, 46, 48, 0, 2, 4, 1, 0, 2, 8, 0,
   32, 78, 248, 32, 0, 0, 0, 0, 0, 0, 0, 0, 0, 0, 0, 0, 0, 0, 0, 0, 0, 0,
   0, 0, 0, 0, 0, 0, 0, 0, 0, 0, 0, 0, 0, 70, 65, 84, 49, 54, 32, 32, 32,
   0, 0]

/-- `imgFat16` with the type label replaced by "HELLO   ", which is
none of FAT12/FAT16/FAT32. -/
def imgBogus : List Nat :=
  [235, 60, 144, 77, 83, 68, 79, 83, 53, 46, 48, 0, 2, 4, 1, 0, 2, 0, 2,
   32, 78, 248, 32, 0, 0, 0, 0, 0, 0, 0, 0, 0, 0, 0, 0, 0, 0, 0, 0, 0, 0,
   0, 0, 0, 0, 0, 0, 0, 0, 0, 0, 0, 0, 0, 72, 69, 76, 76, 79, 32, 32, 32,
   0, 0]

/-- A well-formed FAT32 boot sector (spec section 8, scenario 3):
sectors-per-FAT-16 field 0, 32-bit sectors per FAT 500, total sectors
1048576, first root cluster 2, bytes_per_sector 512,
sectors_per_cluster 8, 32 reserved sectors, label "FAT32   " at 82. -/
def imgFat32 : List Nat :=
  [235, 88, 144, 77, 83, 68, 79, 83, 53, 46, 48, 0, 2, 8, 32, 0, 2, 0, 0,
   0, 0, 248, 0, 0, 0, 0, 0, 0, 0, 0, 0, 0, 0, 0, 16, 0, 244, 1, 0, 0, 0,
   0, 0, 0, 2, 0, 0, 0, 0, 0, 0, 0, 0, 0, 0, 0, 0, 0, 0, 0, 0, 0, 0, 0,
   0, 0, 0, 0, 0, 0, 0, 0, 0, 0, 0, 0, 0, 0, 0, 0, 0, 0, 70, 65, 84, 51,
   50, 32, 32, 32, 0, 0, 0, 0, 0, 0]

/-- The Volume `Fat::new` builds from `imgFat16`. -/
def fat16v : Fat :=
  { mem := imgFat16, oem := [77, 83, 68, 79, 83, 53, 46, 48],
    fat_type := [70, 65, 84, 49, 54, 32, 32, 32],
    fat_table_sectors := 32, fat_table_entry_size := 16,
    fat_table_count := 2, bytes_per_sector := 512,
    sectors_per_cluster := 4, total_clusters := 4976,
    total_sectors := 20000, sectors_reserved_area := 1,
    start_reserved_area := 0, sectors_fat_area := 64,
    start_fat_area := 1, start_data_area := 65, start_root_dir := 65,
    start_cluster_area := 97 }

/-- The Volume `Fat::new` builds from `imgFat16b`. -/
def fat16bv : Fat :=
  { mem := imgFat16b, oem := [77, 83, 68, 79, 83, 53, 46, 48],
    fat_type := [70, 65, 84, 49, 54, 32, 32, 32],
    fat_table_sectors := 32, fat_table_entry_size := 16,
    fat_table_count := 2, bytes_per_sector := 512,
    sectors_per_cluster := 4, total_clusters := 4984,
    total_sectors := 20000, sectors_reserved_area := 1,
    start_reserved_area := 0, sectors_fat_area := 64,
    start_fat_area := 1, start_data_area := 65, start_root_dir := 65,
    start_cluster_area := 65 }

/-- The Volume `Fat::new` builds from `imgBogus`. -/
def fatBogusV : Fat :=
  { mem := imgBogus, oem := [77, 83, 68, 79, 83, 53, 46, 48],
    fat_type := [72, 69, 76, 76, 79, 32, 32, 32],
    fat_table_sectors := 32, fat_table_entry_size := 0,
    fat_table_count := 2, bytes_per_sector := 512,
    sectors_per_cluster := 4, total_clusters := 4976,
    total_sectors := 20000, sectors_reserved_area := 1,
    start_reserved_area := 0, sectors_fat_area := 64,
    start_fat_area := 1, start_data_area := 65, start_root_dir := 65,
    start_cluster_area := 97 }

/-- The Volume `Fat::new` builds from `imgFat32`. -/
def fat32v : Fat :=
  { mem := imgFat32, oem := [77, 83, 68, 79, 83, 53, 46, 48],
    fat_type := [70, 65, 84, 51, 50, 32, 32, 32],
    fat_table_sectors := 500, fat_table_entry_size := 32,
    fat_table_count := 2, bytes_per_sector := 512,
    sectors_per_cluster := 8, total_clusters := 130944,
    total_sectors := 1048576, sectors_reserved_area := 32,
    start_reserved_area := 0, sectors_fat_area := 1000,
    start_fat_area := 32, start_data_area := 1032,
    start_root_dir := 1032, start_cluster_area := 1032 }

/-- Parsing `imgFat16` succeeds and yields `fat16v` (this also checks
the model against spec scenario 2: start_data_area 65,
start_cluster_area 97, total_clusters 4976). -/
theorem fatNew_imgFat16 : Fat.new imgFat16 = some fat16v := by decide

/-- Parsing `imgFat16b` succeeds and yields `fat16bv`. -/
theorem fatNew_imgFat16b : Fat.new imgFat16b = some fat16bv := by decide

/-- Parsing `imgBogus` succeeds and yields `fatBogusV`. -/
theorem fatNew_imgBogus : Fat.new imgBogus = some fatBogusV := by decide

/-- Parsing `imgFat32` succeeds and yields `fat32v` (spec scenario 3:
start_cluster_area = start_data_area = start_root_dir = 1032). -/
theorem fatNew_imgFat32 : Fat.new imgFat32 = some fat32v := by decide

/-- The 11 name bytes `"LONGFI~1TXT"` of spec scenario 5. -/
def nameLong : List Nat := [76, 79, 78, 71, 70, 73, 126, 49, 84, 88, 84]

/-- The scalar list of the fragment `"LongFilename."`. -/
def fragFirst : List Nat :=
  [76, 111, 110, 103, 70, 105, 108, 101, 110, 97, 109, 101, 46]

/-- The scalar list of the fragment `"txt"`. -/
def fragExt : List Nat := [116, 120, 116]

/-- The short entry of spec scenario 5, with short name "LONGFI~1TXT"
and the checksum `Entry::new` derives from it. -/
def shortLongfi : Entry :=
  { name := nameLong, long_name := none, attributes := 32,
    creat_tos := 0, creat_hms := 0, creat_day := 0, access_day := 0,
    written_hms := 0, written_day := 0, start := 5, clusters := none,
    size := 0, checksum := Entry.checksumOf nameLong, deleted := false }

/-- The LFN shard with sequence byte 0x41 carrying "LongFilename.". -/
def shard41 : LFNEntry :=
  { sequence_number := 65, filename := fragFirst,
    checksum := Entry.checksumOf nameLong }

/-- The LFN shard with sequence byte 0x02 carrying "txt". -/
def shard02 : LFNEntry :=
  { sequence_number := 2, filename := fragExt,
    checksum := Entry.checksumOf nameLong }

/-- The two shards of scenario 5 in on-disk scan order (the flagged
0x41 shard physically precedes the 0x02 shard). -/
def lfnShards : List LFNEntry := [shard41, shard02]

/-- A 32-byte directory-entry window whose name field contains an
interior NUL: byte 0 is `A` (0x41), byte 1 is 0x00, bytes 2..10 are
`C`, the attribute byte 11 is 0x20 (archive, not an LFN marker). -/
def demoWindow : List Nat :=
  [65, 0, 67, 67, 67, 67, 67, 67, 67, 67, 67, 32, 0, 0, 0, 0, 0, 0, 0,
   0, 0, 0, 0, 0, 0, 0, 0, 0, 0, 0, 0, 0]

/-- A directory region consisting of the single window `demoWindow`. -/
def demoRegion : List Nat := demoWindow

/-- C1: the claim states that the cluster-chain walk of
`Entry::add_cluster_chain` terminates, each iteration reading the FAT
entry at the current cluster and advancing the cursor to it.  The code
never advances the cursor (the FAT-table offset of the fixed start
cluster is computed into a dead variable and no FAT entry is ever
read), so on the FAT16 volume `fat16v`, for an entry whose start
cluster is the valid cluster 2, the walk does not terminate: no amount
of fuel makes the loop return. -/
theorem claim_C1_add_cluster_chain_never_returns :
    ∀ fuel : Nat, Entry.add_cluster_chain fat16v 2 fuel = none := by
  intro fuel
  unfold Entry.add_cluster_chain
  have h2 : toI32 2 = 2 := by decide
  rw [h2]
  induction fuel with
  | zero => rfl
  | succ f ih =>
    unfold Entry.add_cluster_chain_go
    rw [if_neg (by decide), if_neg (by decide)]
    simp [ih]

/-- C2 counterexample: on the FAT16 volume parsed from `imgFat16`,
converting cluster 2 to a sector and back yields 0, not 2: the claimed
round-trip identity fails because `sector_to_cluster` divides the
sector distance from `start_data_area` without adding the cluster-area
base 2 back. -/
theorem claim_C2_counterexample :
    Fat.new imgFat16 = some fat16v ∧
    Fat.sector_to_cluster fat16v (Fat.cluster_to_sector fat16v 2) ≠ 2 :=
  ⟨fatNew_imgFat16, by decide⟩

/-- C2 (amended): for every Volume with nonzero sectors_per_cluster
and every cluster `c ≥ 2` such that the sector computation does not
wrap past 2^32, the round trip returns `c - 2` (the claimed value `c`
minus the cluster-area base). -/
theorem claim_C2_roundtrip_minus_two (fat : Fat) (c : Nat) (_h2 : 2 ≤ c)
    (hspc : 0 < fat.sectors_per_cluster)
    (hlt : (c - 2) * fat.sectors_per_cluster + fat.start_data_area < pow32) :
    Fat.sector_to_cluster fat (Fat.cluster_to_sector fat c) = c - 2 := by
  have key : u32sub (Fat.cluster_to_sector fat c) fat.start_data_area =
      (c - 2) * fat.sectors_per_cluster := by
    unfold Fat.cluster_to_sector u32sub
    generalize hp : (c - 2) * fat.sectors_per_cluster = p at hlt ⊢
    simp only [pow32] at hlt ⊢
    omega
  rw [Fat.sector_to_cluster, key, Nat.mul_div_cancel _ hspc]

/-- C2 witness: the amended round trip applied to `fat16v` at cluster
2 yields 0 = 2 - 2. -/
theorem claim_C2_witness :
    2 ≤ 2 ∧ 0 < fat16v.sectors_per_cluster ∧
    Fat.sector_to_cluster fat16v (Fat.cluster_to_sector fat16v 2) = 2 - 2 :=
  ⟨by decide, by decide,
   claim_C2_roundtrip_minus_two fat16v 2 (by decide) (by decide) (by decide)⟩

/-- C3 counterexample: on the FAT16 volume parsed from `imgFat16`
(start_data_area 65, root directory ending at start_cluster_area 97),
`cluster_to_sector 2` returns 65, not the claimed
`(2 - 2) * sectors_per_cluster + start_cluster_area = 97`: the code
adds `start_data_area`, not `start_cluster_area`. -/
theorem claim_C3_counterexample :
    Fat.new imgFat16 = some fat16v ∧
    Fat.cluster_to_sector fat16v 2 ≠
      (2 - 2) * fat16v.sectors_per_cluster + fat16v.start_cluster_area :=
  ⟨fatNew_imgFat16, by decide⟩

/-- C3 (amended): `cluster_to_sector` adds `start_data_area`, so the
claimed formula `(c - 2) * sectors_per_cluster + start_cluster_area`
holds exactly on volumes where the two bases coincide (as on FAT32,
where the cluster area starts at the data area), absent u32 wrap. -/
theorem claim_C3_cluster_to_sector_base (fat : Fat) (c : Nat) (_h2 : 2 ≤ c)
    (heq : fat.start_cluster_area = fat.start_data_area)
    (hlt : (c - 2) * fat.sectors_per_cluster + fat.start_cluster_area < pow32) :
    Fat.cluster_to_sector fat c =
      (c - 2) * fat.sectors_per_cluster + fat.start_cluster_area := by
  rw [heq] at hlt ⊢
  unfold Fat.cluster_to_sector
  generalize hp : (c - 2) * fat.sectors_per_cluster = p at hlt ⊢
  simp only [pow32] at hlt ⊢
  omega

/-- C3 witness: on the FAT32 volume `fat32v` (both bases 1032),
cluster 2 maps to sector 1032 as the amended formula states. -/
theorem claim_C3_witness :
    2 ≤ 2 ∧ fat32v.start_cluster_area = fat32v.start_data_area ∧
    Fat.cluster_to_sector fat32v 2 =
      (2 - 2) * fat32v.sectors_per_cluster + fat32v.start_cluster_area :=
  ⟨by decide, by decide,
   claim_C3_cluster_to_sector_base fat32v 2 (by decide) (by decide) (by decide)⟩

/-- C4: on the FAT16 volume parsed from `imgFat16`
(start_fat_area 1, bytes_per_sector 512, fat_table_entry_size 16),
`fat_table_offset` of cluster 2 is `512 + 2 * 16 = 544`: the stride is
the entry width in BITS, not the claimed
`start_fat_area * bytes_per_sector + c * (entry_bits / 8) = 516`
with the stride in bytes. -/
theorem claim_C4_stride_in_bits :
    Fat.new imgFat16 = some fat16v ∧
    Fat.fat_table_offset fat16v 2 = 544 ∧
    fat16v.start_fat_area * fat16v.bytes_per_sector +
      2 * (fat16v.fat_table_entry_size / 8) = 516 ∧
    (544 : Nat) ≠ 516 :=
  ⟨fatNew_imgFat16, by decide, by decide, by decide⟩

/-- C5 counterexample: `imgBogus` carries the boot-sector type label
"HELLO   ", which trims to "HELLO", none of FAT12/FAT16/FAT32 - yet
`Fat::new` returns a Volume (with `fat_table_entry_size` defaulted to
0) instead of failing with a fatal parse error. -/
theorem claim_C5_counterexample :
    readCString? imgBogus 54 62 = some [72, 69, 76, 76, 79, 32, 32, 32] ∧
    trimWs [72, 69, 76, 76, 79, 32, 32, 32] = [72, 69, 76, 76, 79] ∧
    ([72, 69, 76, 76, 79] ≠ sFAT12 ∧ [72, 69, 76, 76, 79] ≠ sFAT16 ∧
     [72, 69, 76, 76, 79] ≠ sFAT32) ∧
    Fat.new imgBogus = some fatBogusV :=
  ⟨by decide, by decide, by decide, fatNew_imgBogus⟩

/-- C5 (amended): an unrecognized type label is not rejected: whenever
every consulted boot-sector field parses (labels NUL-free and UTF-8
valid, reads in bounds, nonzero bytes_per_sector and
sectors_per_cluster; here along the FAT12/16-shaped path, i.e. nonzero
16-bit fields at offsets 22 and 19) and the trimmed label is none of
FAT12/FAT16/FAT32, construction returns a Volume whose
fat_table_entry_size is 0. -/
theorem claim_C5_unknown_label_accepted
    (mem oem lbl : List Nat) (w22 w19 rsv cnt bps spc tre : Nat)
    (hoem : readCString? mem 3 11 = some oem)
    (h22 : readU16? mem 22 = some w22) (hw22 : w22 ≠ 0)
    (hlbl : readCString? mem 54 62 = some lbl)
    (h12lbl : trimWs lbl ≠ sFAT12) (h16lbl : trimWs lbl ≠ sFAT16)
    (h32lbl : trimWs lbl ≠ sFAT32)
    (h19 : readU16? mem 19 = some w19) (hw19 : w19 ≠ 0)
    (h14 : readU16? mem 14 = some rsv)
    (h16 : byte? mem 16 = some cnt)
    (h11 : readU16? mem 11 = some bps) (hbps : bps ≠ 0)
    (h13 : byte? mem 13 = some spc) (hspc : spc ≠ 0)
    (h17 : readU16? mem 17 = some tre) :
    ∃ v, Fat.new mem = some v ∧ v.fat_table_entry_size = 0 := by
  simp only [Fat.new, hoem, h22, hlbl, h19, h14, h16, h11, h13, h17,
             if_neg hw22, if_neg hw19, if_neg hbps, if_neg hspc,
             if_neg h12lbl, if_neg h16lbl, if_neg h32lbl]
  exact ⟨_, rfl, rfl⟩

/-- C5 witness: the amended statement applied to the concrete image
`imgBogus` with its unrecognized label "HELLO   ". -/
theorem claim_C5_witness :
    readCString? imgBogus 54 62 = some [72, 69, 76, 76, 79, 32, 32, 32] ∧
    trimWs [72, 69, 76, 76, 79, 32, 32, 32] ≠ sFAT16 ∧
    ∃ v, Fat.new imgBogus = some v ∧ v.fat_table_entry_size = 0 :=
  ⟨by decide, by decide,
   claim_C5_unknown_label_accepted imgBogus
     [77, 83, 68, 79, 83, 53, 46, 48] [72, 69, 76, 76, 79, 32, 32, 32]
     32 20000 1 2 512 4 512
     (by decide) (by decide) (by decide) (by decide) (by decide)
     (by decide) (by decide) (by decide) (by decide) (by decide)
     (by decide) (by decide) (by decide) (by decide) (by decide)
     (by decide)⟩

/-- C6 counterexample: with the scenario-5 inputs (short entry
"LONGFI~1TXT"; shards with raw sequence bytes 0x41 carrying
"LongFilename." and 0x02 carrying "txt", both with the short name's
checksum), `add_lfn` does not produce "LongFilename.txt". -/
theorem claim_C6_counterexample :
    (Entry.add_lfn shortLongfi lfnShards).long_name ≠
      some (fragFirst ++ fragExt) := by decide

/-- C6 (amended): `lfn_vec.sort()` orders shards by the raw sequence
byte (derived Ord; the 0x40 last-shard flag is not masked), so
0x02 < 0x41 puts "txt" first and the emitted long name is
"txtLongFilename.". -/
theorem claim_C6_raw_sequence_sort :
    (Entry.add_lfn shortLongfi lfnShards).long_name =
      some (fragExt ++ fragFirst) := by decide

/-- C7: every entry emitted by the directory walker's per-region pass
is a region entry whose trimmed short name is neither "." nor "..",
and conversely every region entry with any other name is emitted
(spec-modelled walker; the `.`/`..` predicates are the embedded
`Entry::is_this_entry` / `Entry::is_prev_entry` of fat_entry.rs). -/
theorem claim_C7_dot_entries_filtered (shorts : List Entry) (e : Entry) :
    e ∈ emitEntries shorts ↔
      e ∈ shorts ∧ trimWs e.name ≠ [46] ∧ trimWs e.name ≠ [46, 46] := by
  simp [emitEntries, List.mem_filter, Entry.is_this_entry,
        Entry.is_prev_entry, not_or]

/-- C8 counterexample: on `imgFat16b` (total_root_entries 8,
bytes_per_sector 512, so the root directory occupies 256 bytes),
construction yields start_cluster_area 65 = start_data_area: the
root-directory sectors are floor-divided away, while the claimed
rounded-up value is start_data_area + 1 = 66. -/
theorem claim_C8_counterexample :
    readU16? imgFat16b 17 = some 8 ∧ readU16? imgFat16b 11 = some 512 ∧
    Fat.new imgFat16b = some fat16bv ∧
    fat16bv.start_cluster_area ≠
      fat16bv.start_data_area + (8 * 32 + (512 - 1)) / 512 :=
  ⟨by decide, by decide, fatNew_imgFat16b, by decide⟩

/-- C8 (amended): for FAT12/16-labelled volumes the code derives
start_cluster_area = start_data_area + floor((total_root_entries * 32)
/ bytes_per_sector): a truncating (u16) division, equal to the claimed
rounded-up value only when bytes_per_sector divides
total_root_entries * 32 (stated below for products that do not
overflow the u16 multiplication). -/
theorem claim_C8_root_dir_floor
    (mem oem lbl : List Nat) (w22 w19 rsv cnt bps spc tre : Nat)
    (hoem : readCString? mem 3 11 = some oem)
    (h22 : readU16? mem 22 = some w22) (hw22 : w22 ≠ 0)
    (hlbl : readCString? mem 54 62 = some lbl)
    (h32lbl : trimWs lbl ≠ sFAT32)
    (h19 : readU16? mem 19 = some w19) (hw19 : w19 ≠ 0)
    (h14 : readU16? mem 14 = some rsv)
    (h16 : byte? mem 16 = some cnt)
    (h11 : readU16? mem 11 = some bps) (hbps : bps ≠ 0)
    (h13 : byte? mem 13 = some spc) (hspc : spc ≠ 0)
    (h17 : readU16? mem 17 = some tre) (htre : tre * 32 < 65536) :
    ∃ v, Fat.new mem = some v ∧
      v.start_cluster_area = (v.start_data_area + tre * 32 / bps) % pow32 := by
  simp only [Fat.new, hoem, h22, hlbl, h19, h14, h16, h11, h13, h17,
             if_neg hw22, if_neg hw19, if_neg hbps, if_neg hspc,
             if_neg h32lbl, Nat.mod_eq_of_lt htre]
  exact ⟨_, rfl, rfl⟩

/-- C8 witness: on `imgFat16` (total_root_entries 512,
bytes_per_sector 512) the floor formula gives
start_cluster_area = 65 + 32 = 97. -/
theorem claim_C8_witness :
    readU16? imgFat16 17 = some 512 ∧ 512 * 32 < 65536 ∧
    ∃ v, Fat.new imgFat16 = some v ∧
      v.start_cluster_area = (v.start_data_area + 512 * 32 / 512) % pow32 :=
  ⟨by decide, by decide,
   claim_C8_root_dir_floor imgFat16
     [77, 83, 68, 79, 83, 53, 46, 48] [70, 65, 84, 49, 54, 32, 32, 32]
     32 20000 1 2 512 4 512
     (by decide) (by decide) (by decide) (by decide) (by decide)
     (by decide) (by decide) (by decide) (by decide) (by decide)
     (by decide) (by decide) (by decide) (by decide) (by decide)⟩

/-- C9: the short-name checksum of "Alice      " is 8 and of
"WORK       " is 163, as the claim states. -/
theorem claim_C9_checksum_values :
    Entry.checksumOf [65, 108, 105, 99, 101, 32, 32, 32, 32, 32, 32] = 8 ∧
    Entry.checksumOf [87, 79, 82, 75, 32, 32, 32, 32, 32, 32, 32] = 163 := by
  decide

set_option maxHeartbeats 1000000 in
/-- C10: the fat.rs short-entry decode aborts (returns `none`,
modelling the `CString::new(..).expect(..)` panic) whenever any of the
first 11 bytes of the window is 0x00; consequently the `_tree` scan of
a region whose first window carries an interior NUL in its name field
crashes instead of yielding the entry. -/
theorem claim_C10_nul_name_panics :
    (∀ mem : List Nat, (0 : Nat) ∈ mem.take 11 → Entry.new mem = none) ∧
    Fat.treeScan demoRegion = none := by
  constructor
  · intro mem hz
    rcases le_or_lt 11 mem.length with hlen | hlen
    · have hslice : slice? mem 0 11 = some (mem.take 11) := by
        simp [slice?, hlen]
      have hany : (mem.take 11).any (fun c => c == 0) = true :=
        List.any_eq_true.mpr ⟨0, hz, by decide⟩
      have hc : cstr? (mem.take 11) = none := by simp [cstr?, hany]
      simp only [Entry.new, hslice, hc, Option.some_bind, Option.none_bind]
    · have hslice : slice? mem 0 11 = none := by
        unfold slice?
        rw [if_neg]
        omega
      simp only [Entry.new, hslice, Option.none_bind]
  · decide

/-- C10 witness: the decode aborts on the concrete window
`demoWindow`, whose second name byte is 0x00. -/
theorem claim_C10_witness :
    (0 : Nat) ∈ demoWindow.take 11 ∧ Entry.new demoWindow = none :=
  ⟨by decide, claim_C10_nul_name_panics.1 demoWindow (by decide)⟩

end Greasy
